import Mathlib

/-!
Shallow embedding of `src/main.py` (secret_snowflake), covering the parts
the claims are about: the `Person` record, `validate_email` / `validate_dataframe`,
the duplicate-dropping step of `main`, and the match generator `gen_matches`.

Randomness: pandas `sample(random_state=seed)` with a fixed integer seed is a
deterministic function of the sampled frame, and `gen_matches` passes the same
`random_seed` to every `sample` call.  The two kinds of draws are therefore
modelled as explicit function parameters:
  `pick    : List Person → Nat`  — one-row sampling: an index into the filtered
                                   frame (`df[df.email_address.isin(...)].sample(...)`),
                                   used modulo the frame length;
  `shuffle : List Person → List Person` — full reshuffle
                                   (`df.sample(frac=1, random_state=seed).reset_index(drop=True)`).
An unseeded run corresponds to quantifying over all such functions (any draw
pandas can make is some `pick`/`shuffle`); a seeded run fixes them.
-/

/-- `Person` namedtuple of `main.py` line 27. -/
structure Person where
  name : String
  email_address : String
  mailing_address : String
  gift_ideas : String
deriving DecidableEq, Repr, Inhabited

/-- Characters accepted in the local part of `EMAIL_REGEX` (line 29):
`[a-zA-Z0-9._%+-]`. -/
def isLocalChar (c : Char) : Bool :=
  c.isAlpha || c.isDigit || c == '.' || c == '_' || c == '%' || c == '+' || c == '-'

/-- Characters accepted in the domain part of `EMAIL_REGEX`: `[a-zA-Z0-9.-]`. -/
def isDomainChar (c : Char) : Bool :=
  c.isAlpha || c.isDigit || c == '.' || c == '-'

/-- Does the character list match `[a-zA-Z0-9.-]+\.[a-zA-Z]\x7b2,\x7d` —
some non-empty domain-char block, a dot, then at least two letters?
Checked by trying every split point for the final dot. -/
def domainMatch (l : List Char) : Bool :=
  (List.range l.length).any fun i =>
    decide (i ≠ 0) && (l.take i).all isDomainChar &&
      (match l.drop i with
       | '.' :: tld => decide (2 ≤ tld.length) && tld.all Char.isAlpha
       | _ => false)

/-- Full match of `EMAIL_REGEX = ^[a-zA-Z0-9._%+-]+@[a-zA-Z0-9.-]+\.[a-zA-Z]\x7b2,\x7d$`:
a non-empty local part (which cannot contain an at-sign), one at-sign, then a
domain with no further at-sign.  `re.match` with the `^...$` anchors on a
stripped string is a full-string match. -/
def emailRegexMatch (l : List Char) : Bool :=
  let loc := l.takeWhile (fun c => c != '@')
  match l.drop loc.length with
  | '@' :: rest =>
      decide (loc ≠ []) && loc.all isLocalChar && !(rest.contains '@') && domainMatch rest
  | _ => false

/-- Python `str.strip()` with no argument: leading and trailing whitespace
removed.  (Defined structurally on the character list so that it reduces;
the tab, newline, carriage-return and space cases cover every character the
claims exercise.) -/
def py_strip (s : String) : String :=
  String.mk (((s.toList.dropWhile Char.isWhitespace).reverse.dropWhile
    Char.isWhitespace).reverse)

/-- `validate_email` (lines 32-44).  A missing (NaN, non-string) cell is
modelled as `none` and fails the `isinstance` check; an empty string fails the
`not email` check (and the regex anyway); otherwise the regex is matched
against `email.strip()`. -/
def validate_email (email : Option String) : Bool :=
  match email with
  | none => false
  | some s => if s = "" then false else emailRegexMatch (py_strip s).toList

/-- A row of the participants DataFrame as seen by `validate_dataframe`;
`none` models a NaN cell. -/
structure VRow where
  email_address : Option String
  name : Option String
  mailing_address : Option String
  gift_ideas : Option String
deriving DecidableEq, Repr, Inhabited

/-- The DataFrame handed to `validate_dataframe`: its column list (so the
missing-column check is expressible) and its rows. -/
structure VDataFrame where
  columns : List String
  rows : List VRow
deriving DecidableEq, Repr, Inhabited

/-- Python `str` rendering of a cell used inside error messages:
a NaN cell prints as `nan`. -/
def opt_display (v : Option String) : String :=
  match v with
  | none => "nan"
  | some s => s

/-- ASCII apostrophe, used by the Python error-message f-strings. -/
def apos : String := String.singleton (Char.ofNat 39)

/-- `required_columns` of `validate_dataframe` (line 64). -/
def required_columns : List String :=
  ["email_address", "name", "mailing_address", "gift_ideas"]

/-- The `pd.isna(...) or str(...).strip() == ''` test of lines 79-86. -/
def cell_missing (v : Option String) : Bool :=
  match v with
  | none => true
  | some s => py_strip s = ""

/-- Error message of line 76. -/
def invalid_email_msg (idx : Nat) (row : VRow) : String :=
  "Row " ++ toString idx ++ ": Invalid email address " ++ apos ++
    opt_display row.email_address ++ apos

/-- Error message of line 80. -/
def missing_name_msg (idx : Nat) (row : VRow) : String :=
  "Row " ++ toString idx ++ ": Missing name for " ++ opt_display row.email_address

/-- Error message of line 83. -/
def missing_mailing_msg (idx : Nat) (row : VRow) : String :=
  "Row " ++ toString idx ++ ": Missing mailing address for " ++ opt_display row.email_address

/-- Error message of line 86. -/
def missing_gift_msg (idx : Nat) (row : VRow) : String :=
  "Row " ++ toString idx ++ ": Missing gift ideas for " ++ opt_display row.email_address

/-- The per-row checks of the `df.iterrows()` loop (lines 73-86), in source
order: email format, then name, mailing address, gift ideas. -/
def row_errors (idx : Nat) (row : VRow) : List String :=
  (if validate_email row.email_address then [] else [invalid_email_msg idx row]) ++
  (if cell_missing row.name then [missing_name_msg idx row] else []) ++
  (if cell_missing row.mailing_address then [missing_mailing_msg idx row] else []) ++
  (if cell_missing row.gift_ideas then [missing_gift_msg idx row] else [])

/-- Error message of line 61. -/
def too_few_msg (n : Nat) : String :=
  "Need at least 2 participants, found " ++ toString n

/-- Error message of line 67. -/
def missing_column_msg (col : String) : String :=
  "Missing required column: " ++ col

/-- The structural checks of lines 59-67: participant count first, then the
required columns in their listed order. -/
def structural_errors (df : VDataFrame) : List String :=
  (if df.rows.length < 2 then [too_few_msg df.rows.length] else []) ++
  ((required_columns.filter (fun c => decide (c ∉ df.columns))).map missing_column_msg)

/-- `validate_dataframe` (lines 47-88): if any structural error was collected
the function returns early (line 69-70) and no per-row check runs; otherwise
the row errors of every row are collected, in row order. -/
def validate_dataframe (df : VDataFrame) : List String :=
  let errors := structural_errors df
  if errors.isEmpty then (df.rows.enum.map (fun p => row_errors p.1 p.2)).flatten
  else errors

/-- A raw CSV row as read by `main` (line 282-286): five named columns,
`none` modelling a NaN cell. -/
structure CsvRow where
  timestamp : Option String
  email_address : Option String
  name : Option String
  mailing_address : Option String
  gift_ideas : Option String
deriving DecidableEq, Repr, Inhabited

/-- Worker for `df.drop_duplicates(subset=email_address, keep=first)`
(line 300): keep a row iff its email key has not been seen in an earlier row.
pandas also treats two NaN keys as duplicates of each other, which the
`Option` equality reproduces. -/
def drop_dup_go (rows : List CsvRow) (seen : List (Option String)) : List CsvRow :=
  match rows with
  | [] => []
  | r :: rs =>
      if r.email_address ∈ seen then drop_dup_go rs seen
      else r :: drop_dup_go rs (r.email_address :: seen)

/-- The duplicate-removal step of `main` (lines 298-303). -/
def drop_duplicates_by_email (rows : List CsvRow) : List CsvRow :=
  drop_dup_go rows []

/-- The `available_matches` list comprehension of `gen_matches`
(lines 210-215): candidates are drawn from `all_emails` in order, dropping
the giver itself, pairs `(email, m)` in the `NO_MATCH_LIST` set, and emails
already matched this attempt. -/
def available_matches (no_match_set : List (String × String)) (all_emails : List String)
    (email : String) (already_matched : List String) : List String :=
  all_emails.filter fun m =>
    decide (m ≠ email) && decide ((email, m) ∉ no_match_set) && decide (m ∉ already_matched)

/-- The body of one attempt of `gen_matches`: the `for email in all_emails`
loop (lines 208-251).  Returns the pairs yielded in this attempt before it
either finished (`false`) or deadlocked (`true`).  `pick` models the
`sample(random_state=...)` one-row draw from the filtered frame; the giver is
the first row of `df` with the giver's email (`df.loc[...].iloc[0]`). -/
def attempt_loop (pick : List Person → Nat) (no_match_set : List (String × String))
    (df : List Person) (all_emails : List String)
    (emails : List String) (already_matched : List String) :
    List (Person × Person) × Bool :=
  match emails with
  | [] => ([], false)
  | email :: rest =>
      let avail := available_matches no_match_set all_emails email already_matched
      if avail.isEmpty then ([], true)
      else
        let candidates := df.filter (fun p => decide (p.email_address ∈ avail))
        let receiving_person := candidates.getD (pick candidates % candidates.length) default
        let giving_person := (df.filter (fun p => decide (p.email_address = email))).headD default
        let r := attempt_loop pick no_match_set df all_emails rest
          (receiving_person.email_address :: already_matched)
        ((giving_person, receiving_person) :: r.1, r.2)

/-- One full attempt of `gen_matches` over the frame `df`:
`all_emails = df.email_address.tolist()` and `already_matched = set()`. -/
def run_attempt (pick : List Person → Nat) (no_match_set : List (String × String))
    (df : List Person) : List (Person × Person) × Bool :=
  attempt_loop pick no_match_set df (df.map Person.email_address)
    (df.map Person.email_address) []

/-- The `RuntimeError` message of lines 197-200. -/
def max_attempts_error (max_attempts : Nat) : String :=
  "Could not generate valid matches after " ++ toString max_attempts ++
    " attempts. Check NO_MATCH_LIST constraints - they may make matching impossible."

/-- `gen_matches` (lines 181-251) by remaining-attempt count
(`remaining = max_attempts - attempt`, so `remaining = 0` iff
`attempt >= max_attempts`, the guard of line 196).  The result is the whole
sequence of pairs the generator yields, together with `some msg` when it ends
by raising `RuntimeError`.  Crucially, on deadlock the pairs already yielded
in the failed attempt stay in the stream: the recursion is reached by
`yield from`, so its output is appended after them. -/
def gen_matches_go (pick : List Person → Nat) (shuffle : List Person → List Person)
    (no_match_set : List (String × String)) (max_attempts : Nat) :
    Nat → List Person → List (Person × Person) × Option String
  | 0, _ => ([], some (max_attempts_error max_attempts))
  | remaining + 1, df =>
      let r := run_attempt pick no_match_set df
      if r.2 then
        let rec_r := gen_matches_go pick shuffle no_match_set max_attempts remaining (shuffle df)
        (r.1 ++ rec_r.1, rec_r.2)
      else (r.1, none)

/-- `gen_matches(df, max_attempts, attempt, random_seed)` with the seed-derived
draws `pick`/`shuffle` made explicit. -/
def gen_matches (pick : List Person → Nat) (shuffle : List Person → List Person)
    (no_match_set : List (String × String)) (max_attempts : Nat)
    (df : List Person) (attempt : Nat) : List (Person × Person) × Option String :=
  gen_matches_go pick shuffle no_match_set max_attempts (max_attempts - attempt) df

/-- What the caller (`main`, line 320: `matches = list(gen_matches(...))`)
receives: if the generator raised, the exception propagates out of `list` and
no list of pairs is produced. -/
def collect_matches (r : List (Person × Person) × Option String) :
    Option (List (Person × Person)) :=
  match r.2 with
  | some _ => none
  | none => some r.1

/-! ### Concrete fixtures used to exercise the definitions -/

/-- Test participant. -/
def pa : Person := ⟨"Alice", "a@x.com", "addr a", "gift a"⟩

/-- Test participant. -/
def pb : Person := ⟨"Bob", "b@x.com", "addr b", "gift b"⟩

/-- Test participant. -/
def pc : Person := ⟨"Carol", "c@x.com", "addr c", "gift c"⟩

/-- A three-participant frame. -/
def df_abc : List Person := [pa, pb, pc]

/-- A receiver draw reaching the deadlock of `df_abc` with no exclusions:
Alice draws Bob, Bob draws Alice (Carol is then stuck); after the reshuffle
Carol draws Alice, Bob draws Carol, Alice draws Bob.  Every individual draw
picks index 0 of the filtered frame except the draw from `[pb, pa]`.
All are draws an unseeded `sample` can make. -/
def pick_trace (l : List Person) : Nat := if l = [pb, pa] then 1 else 0

/-- The always-first receiver draw. -/
def pick0 : List Person → Nat := fun _ => 0

/-- C8 fixture row: bad email, missing name, whitespace-only mailing address. -/
def vbad : VRow := ⟨some "notanemail", none, some " ", some "g"⟩

/-- C8 fixture row: fully valid. -/
def vok : VRow := ⟨some "ok@x.com", some "N", some "M", some "G"⟩

/-- C8 fixture frame: all required columns, two rows, three defects in row 0. -/
def vdf8 : VDataFrame := ⟨required_columns, [vbad, vok]⟩

/-- C10 fixture frame: one row and two required columns missing. -/
def vdf10 : VDataFrame := ⟨["email_address", "name"], [⟨some "x", none, none, none⟩]⟩

/-- C9 fixture row. -/
def crow1 : CsvRow := ⟨some "t1", some "a@x.com", some "first", none, none⟩

/-- C9 fixture row sharing `crow1`'s email. -/
def crow2 : CsvRow := ⟨some "t2", some "a@x.com", some "second", none, none⟩

/-- C9 fixture row with a fresh email. -/
def crow3 : CsvRow := ⟨some "t3", some "b@x.com", some "third", none, none⟩

/-! ### Basic lemmas about the embedded operations -/

theorem mem_available_matches {no_match_set : List (String × String)}
    {all_emails : List String} {email m : String} {already_matched : List String} :
    m ∈ available_matches no_match_set all_emails email already_matched ↔
      m ∈ all_emails ∧ m ≠ email ∧ (email, m) ∉ no_match_set ∧ m ∉ already_matched := by
  simp [available_matches, List.mem_filter, and_assoc]

theorem getD_mod_mem {l : List Person} (h : l ≠ []) (k : Nat) (d : Person) :
    l.getD (k % l.length) d ∈ l := by
  have hlen : 0 < l.length := List.length_pos.mpr h
  have hk : k % l.length < l.length := Nat.mod_lt _ hlen
  rw [List.getD_eq_getElem?_getD, List.getElem?_eq_getElem hk]
  exact Option.getD_some ▸ List.getElem_mem hk

theorem headD_mem {l : List Person} (h : l ≠ []) (d : Person) : l.headD d ∈ l := by
  cases l with
  | nil => exact absurd rfl h
  | cons a t => exact List.mem_cons_self a t

theorem filter_candidates_ne_nil {df : List Person} {avail : List String}
    (hne : avail ≠ []) (hsub : ∀ m ∈ avail, m ∈ df.map Person.email_address) :
    df.filter (fun p => decide (p.email_address ∈ avail)) ≠ [] := by
  obtain ⟨m, hm⟩ := List.exists_mem_of_ne_nil avail hne
  obtain ⟨q, hq, hqe⟩ := List.mem_map.mp (hsub m hm)
  apply List.ne_nil_of_mem (a := q)
  refine List.mem_filter.mpr ⟨hq, ?_⟩
  simp [hqe, hm]

theorem headD_filter_email {df : List Person} {email : String}
    (h : email ∈ df.map Person.email_address) :
    ((df.filter (fun p => decide (p.email_address = email))).headD default).email_address
      = email := by
  obtain ⟨q, hq, hqe⟩ := List.mem_map.mp h
  have hfne : df.filter (fun p => decide (p.email_address = email)) ≠ [] := by
    apply List.ne_nil_of_mem (a := q)
    refine List.mem_filter.mpr ⟨hq, ?_⟩
    simp [hqe]
  have := List.mem_filter.mp (headD_mem hfne default)
  simpa using this.2

theorem getD_filter_mem_avail {df : List Person} {avail : List String} (k : Nat)
    (hne : df.filter (fun p => decide (p.email_address ∈ avail)) ≠ []) :
    ((df.filter (fun p => decide (p.email_address ∈ avail))).getD
        (k % (df.filter (fun p => decide (p.email_address ∈ avail))).length)
        default).email_address ∈ avail := by
  have hmem := getD_mod_mem hne k default
  have := List.mem_filter.mp hmem
  simpa using this.2

theorem attempt_loop_pairs_valid (pick : List Person → Nat)
    (nm : List (String × String)) (df : List Person) :
    ∀ (emails already : List String),
      (∀ e ∈ emails, e ∈ df.map Person.email_address) →
      ∀ p ∈ (attempt_loop pick nm df (df.map Person.email_address) emails already).1,
        p.1.email_address ≠ p.2.email_address ∧
          (p.1.email_address, p.2.email_address) ∉ nm := by
  intro emails
  induction emails with
  | nil =>
      intro already _ p hp
      simp [attempt_loop] at hp
  | cons email rest ih =>
      intro already hsub p hp
      rw [attempt_loop] at hp
      by_cases hav :
          (available_matches nm (df.map Person.email_address) email already).isEmpty
      · rw [if_pos hav] at hp
        simp at hp
      · rw [if_neg hav] at hp
        have hav' : available_matches nm (df.map Person.email_address) email already ≠ [] := by
          intro hnil
          rw [hnil] at hav
          simp at hav
        have hcne := filter_candidates_ne_nil hav'
          (fun m hm => (mem_available_matches.mp hm).1)
        rcases List.mem_cons.mp hp with hph | hpt
        · have hrmem := @getD_filter_mem_avail df
            (available_matches nm (df.map Person.email_address) email already)
            (pick (df.filter (fun p => decide (p.email_address ∈
              available_matches nm (df.map Person.email_address) email already)))) hcne
          have hrfacts := mem_available_matches.mp hrmem
          have hge := @headD_filter_email df email
            (hsub email (List.mem_cons_self _ _))
          rw [hph]
          refine ⟨?_, ?_⟩
          · simp only [hge]
            exact fun h => hrfacts.2.1 h.symm
          · simp only [hge]
            exact hrfacts.2.2.1
        · exact ih _ (fun e he => hsub e (List.mem_cons_of_mem _ he)) p hpt

theorem gen_matches_go_pairs_valid (pick : List Person → Nat)
    (shuffle : List Person → List Person) (nm : List (String × String)) (maxA : Nat) :
    ∀ (remaining : Nat) (df : List Person),
      ∀ p ∈ (gen_matches_go pick shuffle nm maxA remaining df).1,
        p.1.email_address ≠ p.2.email_address ∧
          (p.1.email_address, p.2.email_address) ∉ nm := by
  intro remaining
  induction remaining with
  | zero =>
      intro df p hp
      simp [gen_matches_go] at hp
  | succ n ih =>
      intro df p hp
      rw [gen_matches_go] at hp
      by_cases hdl : (run_attempt pick nm df).2
      · rw [if_pos hdl] at hp
        rcases List.mem_append.mp hp with h | h
        · rw [run_attempt] at h
          exact attempt_loop_pairs_valid pick nm df _ [] (fun e he => he) p h
        · exact ih (shuffle df) p h
      · rw [if_neg hdl] at hp
        rw [run_attempt] at hp
        exact attempt_loop_pairs_valid pick nm df _ [] (fun e he => he) p hp

/-- **C4.** Every pair ever yielded by `gen_matches` — in any attempt, also in
attempts that later deadlock or precede the `RuntimeError` — has a receiver
whose email differs from the giver's email, and the ordered email pair
`(giver, receiver)` is not in the exclusion set. -/
theorem gen_matches_pairs_respect_constraints (pick : List Person → Nat)
    (shuffle : List Person → List Person) (nm : List (String × String))
    (maxA : Nat) (df : List Person) (attempt : Nat) :
    ∀ p ∈ (gen_matches pick shuffle nm maxA df attempt).1,
      p.1.email_address ≠ p.2.email_address ∧
        (p.1.email_address, p.2.email_address) ∉ nm :=
  gen_matches_go_pairs_valid pick shuffle nm maxA (maxA - attempt) df

/-- Witness for C4 at a concrete run with a non-empty exclusion set. -/
theorem gen_matches_pairs_respect_constraints_witness :
    pa.email_address ≠ pb.email_address ∧
      (pa.email_address, pb.email_address) ∉ [("c@x.com", "a@x.com")] :=
  gen_matches_pairs_respect_constraints pick0 id [("c@x.com", "a@x.com")] 100 [pa, pb] 0
    (pa, pb) (by decide)

theorem gen_matches_go_error (pick : List Person → Nat)
    (shuffle : List Person → List Person) (nm : List (String × String)) (maxA : Nat) :
    ∀ (remaining : Nat) (df : List Person) (e : String),
      (gen_matches_go pick shuffle nm maxA remaining df).2 = some e →
        e = max_attempts_error maxA := by
  intro remaining
  induction remaining with
  | zero =>
      intro df e he
      simp [gen_matches_go] at he
      exact he.symm
  | succ n ih =>
      intro df e he
      rw [gen_matches_go] at he
      by_cases hdl : (run_attempt pick nm df).2
      · rw [if_pos hdl] at he
        exact ih (shuffle df) e he
      · rw [if_neg hdl] at he
        simp at he

/-- **C3.** Once the attempt counter reaches `max_attempts` the generator raises
the `RuntimeError` at once, before yielding anything; any error the generator
ever ends with is that error, whose message is built from `max_attempts`; and
in that case the caller's `list(gen_matches(...))` receives no assignment at
all, partial or otherwise. -/
theorem gen_matches_max_attempts_failure (pick : List Person → Nat)
    (shuffle : List Person → List Person) (nm : List (String × String))
    (maxA : Nat) (df : List Person) (attempt : Nat) :
    (attempt ≥ maxA →
      gen_matches pick shuffle nm maxA df attempt = ([], some (max_attempts_error maxA))) ∧
    (∀ e, (gen_matches pick shuffle nm maxA df attempt).2 = some e →
      e = max_attempts_error maxA ∧
        collect_matches (gen_matches pick shuffle nm maxA df attempt) = none) := by
  constructor
  · intro h
    have h0 : maxA - attempt = 0 := Nat.sub_eq_zero_of_le h
    rw [gen_matches, h0]
    rfl
  · intro e he
    refine ⟨gen_matches_go_error pick shuffle nm maxA (maxA - attempt) df e he, ?_⟩
    rw [collect_matches]
    rw [gen_matches] at he ⊢
    rw [he]

/-- Witness for C3: with `max_attempts = 3` and the counter at 3, the run
errors with the 3-attempt message and the caller receives nothing. -/
theorem gen_matches_max_attempts_failure_witness :
    gen_matches pick0 id [] 3 [pa, pb] 3 = ([], some (max_attempts_error 3)) ∧
      collect_matches (gen_matches pick0 id [] 3 [pa, pb] 3) = none :=
  ⟨(gen_matches_max_attempts_failure pick0 id [] 3 [pa, pb] 3).1 (by decide),
   ((gen_matches_max_attempts_failure pick0 id [] 3 [pa, pb] 3).2
      (max_attempts_error 3) rfl).2⟩

/-- **C6.** The assignment sequence is a function of the registry, the
exclusion set, the retry bound and the seed-derived draw functions: two runs
whose seeded draws agree (pandas sampling with one integer `random_state` is
one fixed function of the sampled frame) produce identical output, pairs and
order included. -/
theorem gen_matches_deterministic (pick₁ pick₂ : List Person → Nat)
    (shuffle₁ shuffle₂ : List Person → List Person) (nm : List (String × String))
    (maxA : Nat) (df : List Person) (attempt : Nat)
    (hp : pick₁ = pick₂) (hs : shuffle₁ = shuffle₂) :
    gen_matches pick₁ shuffle₁ nm maxA df attempt =
      gen_matches pick₂ shuffle₂ nm maxA df attempt := by
  rw [hp, hs]

/-- Witness for C6 at a concrete seeded run. -/
theorem gen_matches_deterministic_witness :
    gen_matches pick0 List.reverse [] 100 df_abc 0 =
      gen_matches pick0 List.reverse [] 100 df_abc 0 :=
  gen_matches_deterministic pick0 pick0 List.reverse List.reverse [] 100 df_abc 0 rfl rfl

/-- **C7.** The exclusion test of the candidate computation is directional:
membership of `m` among giver `g`'s available receivers depends on
`(g, m) ∉ exclusions` only — the reversed pair `(m, g)` never occurs in the
condition, and its presence in the exclusion set does not block the match. -/
theorem available_matches_directional (nm : List (String × String))
    (all_emails : List String) (email m : String) (already : List String) :
    (m ∈ available_matches nm all_emails email already ↔
       m ∈ all_emails ∧ m ≠ email ∧ (email, m) ∉ nm ∧ m ∉ already) ∧
    ((m, email) ∈ nm → (email, m) ∉ nm → m ∈ all_emails → m ≠ email → m ∉ already →
       m ∈ available_matches nm all_emails email already) := by
  refine ⟨mem_available_matches, ?_⟩
  intro _ h2 h3 h4 h5
  exact mem_available_matches.mpr ⟨h3, h4, h2, h5⟩

/-- Witness for C7: with only the reversed pair `(b, a)` excluded, `b` is
still available to giver `a`. -/
theorem available_matches_directional_witness :
    "b@x.com" ∈ available_matches [("b@x.com", "a@x.com")] ["a@x.com", "b@x.com"]
      "a@x.com" [] :=
  (available_matches_directional [("b@x.com", "a@x.com")] ["a@x.com", "b@x.com"]
      "a@x.com" "b@x.com" []).2
    (by decide) (by decide) (by decide) (by decide) (by decide)

/-- **C1 (code bug).** A completed (error-free) run over the 3-participant
registry `df_abc` with an empty exclusion set — which admits a derangement —
returns 5 pairs, not 3, when a deadlock-triggered restart occurred: the
`yield from` restart appends the new attempt after the two pairs the failed
attempt had already yielded. -/
theorem gen_matches_restart_run_yields_five_pairs :
    (gen_matches pick_trace List.reverse [] 100 df_abc 0).2 = none ∧
    (gen_matches pick_trace List.reverse [] 100 df_abc 0).1.length = 5 ∧
    df_abc.length = 3 :=
  ⟨rfl, rfl, rfl⟩

/-- **C2 (code bug).** The first attempt on `df_abc` deadlocks after yielding
`(Alice, Bob)` and `(Bob, Alice)`; those pairs are not abandoned: the caller's
`list(...)` receives them as the first two elements of the final output,
ahead of the pairs of the successful attempt. -/
theorem deadlocked_attempt_pairs_reach_output :
    run_attempt pick_trace [] df_abc = ([(pa, pb), (pb, pa)], true) ∧
    run_attempt pick_trace [] (List.reverse df_abc) =
      ([(pc, pa), (pb, pc), (pa, pb)], false) ∧
    collect_matches (gen_matches pick_trace List.reverse [] 100 df_abc 0) =
      some [(pa, pb), (pb, pa), (pc, pa), (pb, pc), (pa, pb)] :=
  ⟨rfl, rfl, rfl⟩

theorem eq_pair_of_perm {l : List Person} {a b : Person} (h : l.Perm [a, b]) :
    l = [a, b] ∨ l = [b, a] := by
  match l, h with
  | [], h => exact absurd h.length_eq (by simp)
  | [x], h => exact absurd h.length_eq (by simp)
  | x :: y :: z :: t, h => exact absurd h.length_eq (by simp)
  | [x, y], h =>
      have hx : x ∈ [a, b] := h.mem_iff.mp (List.mem_cons_self _ _)
      rcases List.mem_pair.mp hx with hxa | hxb
      · subst hxa
        have := List.perm_singleton.mp (h.cons_inv)
        left
        rw [this]
      · subst hxb
        have h2 : List.Perm [x, y] [x, a] := h.trans (List.Perm.swap x a [])
        have := List.perm_singleton.mp (h2.cons_inv)
        right
        rw [this]

theorem available_matches_mutual_empty {nm : List (String × String)} {e1 e2 : String}
    (h12 : (e1, e2) ∈ nm) :
    available_matches nm [e1, e2] e1 [] = [] := by
  simp [available_matches, h12]

theorem run_attempt_mutual_deadlock (pick : List Person → Nat)
    {nm : List (String × String)} {A B : Person}
    (hAB : (A.email_address, B.email_address) ∈ nm) :
    run_attempt pick nm [A, B] = ([], true) := by
  rw [run_attempt]
  show attempt_loop pick nm [A, B] [A.email_address, B.email_address]
    [A.email_address, B.email_address] [] = ([], true)
  rw [attempt_loop, available_matches_mutual_empty hAB]
  rfl

theorem gen_matches_go_mutual_exclusion (pick : List Person → Nat)
    (shuffle : List Person → List Person) (hshuffle : ∀ l, (shuffle l).Perm l)
    {nm : List (String × String)} {A B : Person}
    (hAB : (A.email_address, B.email_address) ∈ nm)
    (hBA : (B.email_address, A.email_address) ∈ nm) (maxA : Nat) :
    ∀ (remaining : Nat) (df : List Person), df.Perm [A, B] →
      gen_matches_go pick shuffle nm maxA remaining df =
        ([], some (max_attempts_error maxA)) := by
  intro remaining
  induction remaining with
  | zero => intro df _; rfl
  | succ n ih =>
      intro df hdf
      have hra : run_attempt pick nm df = ([], true) := by
        rcases eq_pair_of_perm hdf with h | h
        · rw [h]
          exact run_attempt_mutual_deadlock pick hAB
        · rw [h]
          exact run_attempt_mutual_deadlock pick hBA
      rw [gen_matches_go, hra]
      simp only [if_pos]
      rw [ih (shuffle df) ((hshuffle df).trans hdf)]
      rfl

/-- **C5.** A 2-participant registry whose exclusion set contains both
directions of the pair deadlocks on every attempt; `gen_matches` terminates
after exhausting the retry budget with the `RuntimeError` and yields no pair
at all. -/
theorem two_person_mutual_exclusion_infeasible (pick : List Person → Nat)
    (shuffle : List Person → List Person) (hshuffle : ∀ l, (shuffle l).Perm l)
    (nm : List (String × String)) (A B : Person) (maxA : Nat)
    (hAB : (A.email_address, B.email_address) ∈ nm)
    (hBA : (B.email_address, A.email_address) ∈ nm) :
    gen_matches pick shuffle nm maxA [A, B] 0 =
      ([], some (max_attempts_error maxA)) :=
  gen_matches_go_mutual_exclusion pick shuffle hshuffle hAB hBA maxA (maxA - 0) [A, B]
    (List.Perm.refl _)

/-- Witness for C5 at a concrete mutual exclusion with retry budget 3. -/
theorem two_person_mutual_exclusion_infeasible_witness :
    gen_matches pick0 List.reverse [("a@x.com", "b@x.com"), ("b@x.com", "a@x.com")]
        3 [pa, pb] 0 = ([], some (max_attempts_error 3)) :=
  two_person_mutual_exclusion_infeasible pick0 List.reverse
    (fun l => List.reverse_perm l)
    [("a@x.com", "b@x.com"), ("b@x.com", "a@x.com")] pa pb 3 (by decide) (by decide)

theorem structural_errors_nil {df : VDataFrame} (hlen : 2 ≤ df.rows.length)
    (hcols : ∀ c ∈ required_columns, c ∈ df.columns) :
    structural_errors df = [] := by
  have hfil : required_columns.filter (fun c => decide (c ∉ df.columns)) = [] := by
    rw [List.filter_eq_nil_iff]
    intro c hc
    simp [hcols c hc]
  rw [structural_errors, hfil, if_neg (by omega)]
  rfl

theorem row_errors_sub_validate {df : VDataFrame} (hlen : 2 ≤ df.rows.length)
    (hcols : ∀ c ∈ required_columns, c ∈ df.columns) {i : Nat} {row : VRow}
    (hrow : df.rows[i]? = some row) :
    ∀ msg ∈ row_errors i row, msg ∈ validate_dataframe df := by
  intro msg hm
  rw [validate_dataframe]
  rw [structural_errors_nil hlen hcols]
  simp only [List.isEmpty_nil, if_true]
  rw [List.mem_flatten]
  refine ⟨row_errors i row, ?_, hm⟩
  exact List.mem_map.mpr ⟨(i, row), List.mk_mem_enum_iff_getElem?.mpr hrow, rfl⟩

/-- **C8.** When the registry is structurally sound (all required columns,
at least 2 rows), every row-level defect contributes its own error message to
the returned list: the invalid-email, missing-name, missing-mailing-address
and missing-gift-ideas messages of each defective row are all present — the
validation is exhaustive, not first-error-only. -/
theorem validate_dataframe_reports_all_row_defects (df : VDataFrame)
    (hlen : 2 ≤ df.rows.length) (hcols : ∀ c ∈ required_columns, c ∈ df.columns)
    (i : Nat) (row : VRow) (hrow : df.rows[i]? = some row) :
    (validate_email row.email_address = false →
       invalid_email_msg i row ∈ validate_dataframe df) ∧
    (cell_missing row.name = true →
       missing_name_msg i row ∈ validate_dataframe df) ∧
    (cell_missing row.mailing_address = true →
       missing_mailing_msg i row ∈ validate_dataframe df) ∧
    (cell_missing row.gift_ideas = true →
       missing_gift_msg i row ∈ validate_dataframe df) := by
  refine ⟨fun h => ?_, fun h => ?_, fun h => ?_, fun h => ?_⟩ <;>
    apply row_errors_sub_validate hlen hcols hrow <;>
    simp [row_errors, h]

/-- Witness for C8: the frame `vdf8` carries three simultaneous defects in
row 0 (bad email, missing name, whitespace-only mailing address) and the
returned list contains all three distinct messages. -/
theorem validate_dataframe_reports_all_row_defects_witness :
    (invalid_email_msg 0 vbad ∈ validate_dataframe vdf8 ∧
     missing_name_msg 0 vbad ∈ validate_dataframe vdf8 ∧
     missing_mailing_msg 0 vbad ∈ validate_dataframe vdf8) ∧
    (invalid_email_msg 0 vbad ≠ missing_name_msg 0 vbad ∧
     invalid_email_msg 0 vbad ≠ missing_mailing_msg 0 vbad ∧
     missing_name_msg 0 vbad ≠ missing_mailing_msg 0 vbad) :=
  ⟨⟨(validate_dataframe_reports_all_row_defects vdf8 (by decide) (by decide) 0 vbad
        rfl).1 (by decide),
    (validate_dataframe_reports_all_row_defects vdf8 (by decide) (by decide) 0 vbad
        rfl).2.1 (by decide),
    (validate_dataframe_reports_all_row_defects vdf8 (by decide) (by decide) 0 vbad
        rfl).2.2.1 (by decide)⟩,
   by refine ⟨?_, ?_, ?_⟩ <;> decide⟩

/-- **C10.** If the frame has fewer than 2 rows or lacks a required column,
`validate_dataframe` returns exactly the (non-empty) structural error list and
runs no per-row check: the output is the structural errors, nothing else. -/
theorem validate_dataframe_structural_short_circuit (df : VDataFrame)
    (h : df.rows.length < 2 ∨ ∃ c ∈ required_columns, c ∉ df.columns) :
    validate_dataframe df = structural_errors df ∧ structural_errors df ≠ [] := by
  have hne : structural_errors df ≠ [] := by
    rcases h with h | ⟨c, hc, hcn⟩
    · apply List.ne_nil_of_mem (a := too_few_msg df.rows.length)
      rw [structural_errors, if_pos h]
      exact List.mem_append.mpr (Or.inl (List.mem_cons_self _ _))
    · apply List.ne_nil_of_mem (a := missing_column_msg c)
      rw [structural_errors]
      refine List.mem_append.mpr (Or.inr ?_)
      exact List.mem_map.mpr ⟨c, List.mem_filter.mpr ⟨hc, by simp [hcn]⟩, rfl⟩
  refine ⟨?_, hne⟩
  rw [validate_dataframe]
  rw [if_neg (by simpa [List.isEmpty_iff] using hne)]

/-- Witness for C10: one row and two missing columns yield exactly the three
structural errors. -/
theorem validate_dataframe_structural_short_circuit_witness :
    validate_dataframe vdf10 = structural_errors vdf10 ∧
      structural_errors vdf10 ≠ [] :=
  validate_dataframe_structural_short_circuit vdf10 (Or.inl (by decide))

theorem drop_dup_go_sublist : ∀ (rows : List CsvRow) (seen : List (Option String)),
    (drop_dup_go rows seen).Sublist rows := by
  intro rows
  induction rows with
  | nil => intro seen; simp [drop_dup_go]
  | cons r rs ih =>
      intro seen
      rw [drop_dup_go]
      by_cases h : r.email_address ∈ seen
      · rw [if_pos h]
        exact (ih seen).cons r
      · rw [if_neg h]
        exact (ih _).cons₂ r

theorem drop_dup_go_not_seen : ∀ (rows : List CsvRow) (seen : List (Option String))
    (r : CsvRow), r ∈ drop_dup_go rows seen → r.email_address ∉ seen := by
  intro rows
  induction rows with
  | nil => intro seen r hr; simp [drop_dup_go] at hr
  | cons x rs ih =>
      intro seen r hr
      rw [drop_dup_go] at hr
      by_cases h : x.email_address ∈ seen
      · rw [if_pos h] at hr
        exact ih seen r hr
      · rw [if_neg h] at hr
        rcases List.mem_cons.mp hr with hrx | hrt
        · rw [hrx]
          exact h
        · have := ih _ r hrt
          intro hc
          exact this (List.mem_cons_of_mem _ hc)

theorem drop_dup_go_emails_nodup :
    ∀ (rows : List CsvRow) (seen : List (Option String)),
      ((drop_dup_go rows seen).map CsvRow.email_address).Nodup := by
  intro rows
  induction rows with
  | nil => intro seen; simp [drop_dup_go]
  | cons x rs ih =>
      intro seen
      rw [drop_dup_go]
      by_cases h : x.email_address ∈ seen
      · rw [if_pos h]
        exact ih seen
      · rw [if_neg h]
        rw [List.map_cons, List.nodup_cons]
        refine ⟨?_, ih _⟩
        intro hc
        obtain ⟨q, hq, hqe⟩ := List.mem_map.mp hc
        have := drop_dup_go_not_seen rs _ q hq
        exact this (hqe ▸ List.mem_cons_self _ _)

theorem drop_dup_go_first_occurrence :
    ∀ (rows : List CsvRow) (seen : List (Option String)) (r : CsvRow),
      r ∈ drop_dup_go rows seen →
      rows.find? (fun x => decide (x.email_address = r.email_address)) = some r := by
  intro rows
  induction rows with
  | nil => intro seen r hr; simp [drop_dup_go] at hr
  | cons x rs ih =>
      intro seen r hr
      rw [drop_dup_go] at hr
      by_cases h : x.email_address ∈ seen
      · rw [if_pos h] at hr
        have hne : x.email_address ≠ r.email_address := by
          intro he
          exact (drop_dup_go_not_seen rs seen r hr) (he ▸ h)
        rw [List.find?_cons_of_neg _ (by simpa using hne)]
        exact ih seen r hr
      · rw [if_neg h] at hr
        rcases List.mem_cons.mp hr with hrx | hrt
        · rw [hrx]
          rw [List.find?_cons_of_pos _ (by simp)]
        · have hne : x.email_address ≠ r.email_address := by
            intro he
            have := drop_dup_go_not_seen rs _ r hrt
            exact this (he ▸ List.mem_cons_self _ _)
          rw [List.find?_cons_of_neg _ (by simpa using hne)]
          exact ih _ r hrt

theorem drop_dup_go_mem_emails :
    ∀ (rows : List CsvRow) (seen : List (Option String)) (e : Option String),
      e ∉ seen →
      (e ∈ (drop_dup_go rows seen).map CsvRow.email_address ↔
        e ∈ rows.map CsvRow.email_address) := by
  intro rows
  induction rows with
  | nil => intro seen e _; simp [drop_dup_go]
  | cons x rs ih =>
      intro seen e he
      rw [drop_dup_go]
      by_cases h : x.email_address ∈ seen
      · rw [if_pos h]
        have hne : e ≠ x.email_address := by
          intro hc
          exact he (hc ▸ h)
        rw [List.map_cons, List.mem_cons]
        rw [ih seen e he]
        simp [hne]
      · rw [if_neg h]
        by_cases hex : e = x.email_address
        · simp [hex]
        · rw [List.map_cons, List.map_cons, List.mem_cons, List.mem_cons]
          have he2 : e ∉ x.email_address :: seen := by
            intro hc
            rcases List.mem_cons.mp hc with h1 | h2
            · exact hex h1
            · exact he h2
          rw [ih _ e he2]

theorem drop_duplicates_length (rows : List CsvRow) :
    (drop_duplicates_by_email rows).length =
      ((rows.map CsvRow.email_address).dedup).length := by
  have h1 : ((drop_duplicates_by_email rows).map CsvRow.email_address).Nodup :=
    drop_dup_go_emails_nodup rows []
  have h2 : ((rows.map CsvRow.email_address).dedup).Nodup := List.nodup_dedup _
  have hperm : ((drop_duplicates_by_email rows).map CsvRow.email_address).Perm
      ((rows.map CsvRow.email_address).dedup) := by
    rw [List.perm_ext_iff_of_nodup h1 h2]
    intro e
    rw [List.mem_dedup]
    exact drop_dup_go_mem_emails rows [] e (by simp)
  have := hperm.length_eq
  simpa using this

/-- **C9.** `drop_duplicates(subset=email_address, keep=first)` keeps, for
each email, exactly the first row carrying it: the result is an order-
preserving sub-sequence of the input with pairwise-distinct emails, every
kept row is the first input row with its email, every input email is still
represented, and the result length is the number of distinct emails (so the
size drops by exactly the number of later duplicates). -/
theorem drop_duplicates_keeps_first_occurrence (rows : List CsvRow) :
    (drop_duplicates_by_email rows).Sublist rows ∧
    ((drop_duplicates_by_email rows).map CsvRow.email_address).Nodup ∧
    (∀ r ∈ drop_duplicates_by_email rows,
       rows.find? (fun x => decide (x.email_address = r.email_address)) = some r) ∧
    (∀ e, e ∈ (drop_duplicates_by_email rows).map CsvRow.email_address ↔
       e ∈ rows.map CsvRow.email_address) ∧
    (drop_duplicates_by_email rows).length =
      ((rows.map CsvRow.email_address).dedup).length := by
  refine ⟨drop_dup_go_sublist rows [], drop_dup_go_emails_nodup rows [],
    fun r hr => drop_dup_go_first_occurrence rows [] r hr,
    fun e => drop_dup_go_mem_emails rows [] e (by simp),
    drop_duplicates_length rows⟩

/-- Witness for C9: two rows share an email; the first occurrence is kept,
the later duplicate dropped, and the size shrinks from 3 to 2. -/
theorem drop_duplicates_keeps_first_occurrence_witness :
    drop_duplicates_by_email [crow1, crow2, crow3] = [crow1, crow3] ∧
    [crow1, crow2, crow3].find?
      (fun x => decide (x.email_address = crow1.email_address)) = some crow1 :=
  ⟨by decide,
   (drop_duplicates_keeps_first_occurrence [crow1, crow2, crow3]).2.2.1 crow1
     (by decide)⟩
